import Mathlib

/-
  Verification development for the untitled-penguin-game entity simulation.

  The embedding models the Python sources of `penguin_game` (both the flat
  `actors.py`/`entities.py` revision and the later `entities/` package
  revision; the latter is a superset adding snap-to-grid, which is kept here
  behind the `snap` flag of `UpdateConfig`).

  Numeric model: all lengths are integers measured in TENTHS of a pixel, so
  that every constant of the source is exactly representable
  (PLAYER_SPEED = 0.5 px/ms -> 5, ENEMY_SPEED = 0.3 px/ms -> 3,
  TILE_SIZE = 64 px -> 640, neighbour tolerance 12 px -> 120, and the
  collision-ratio inflations 1.1 and 1.2 of a 64-px tile are 3.2 px and
  6.4 px -> 32 and 64).  Times (dt, the countdown timers) are unscaled.
  pygame stores rect coordinates as ints while `pos` is a float vector; here
  the rect mirrors `pos` exactly (the sub-pixel truncation of pygame rect
  assignment is not modelled; no claim hinges on sub-pixel rounding).
  pygame's `colliderect` is the strict-inequality overlap test used below.
-/

namespace PenguinGame

/- Constants from `penguin_game/settings.py`, in tenths of a pixel. -/

def TILE_SIZE : ℤ := 640

def INFO_HEIGHT : ℤ := 320

def PLAYER_SPEED : ℤ := 5

def BLOCK_SPEED : ℤ := 10

def ENEMY_SPEED : ℤ := 3

def DEATH_TIME : ℤ := 60

def START_LIVES : ℤ := 2

def EGG_BREAK_POINTS : ℤ := 400

def ENEMY_KILL_POINTS : ℤ := 200

def MAX_GRID_WIDTH : Nat := 20

def MAX_GRID_HEIGHT : Nat := 20

/-- Default `tolerance` of `is_actor_neighbour_in_direction` (12 px). -/
def NEIGHBOUR_TOLERANCE : ℤ := 120

/-- A 2-D vector, as `pygame.math.Vector2` (components here: ℤ, see header). -/
structure Vec where
  x : ℤ
  y : ℤ
deriving DecidableEq, Repr

def Vec.zero : Vec := ⟨0, 0⟩

instance : Add Vec := ⟨fun a b => ⟨a.x + b.x, a.y + b.y⟩⟩

instance : Sub Vec := ⟨fun a b => ⟨a.x - b.x, a.y - b.y⟩⟩

def Vec.neg (v : Vec) : Vec := ⟨-v.x, -v.y⟩

/-- Scalar multiple `k * v` (`Vector2 * scalar` in the source). -/
def Vec.scale (k : ℤ) (v : Vec) : Vec := ⟨k * v.x, k * v.y⟩

/-- A pygame `Rect`: top-left corner plus extent. -/
structure Rect where
  x : ℤ
  y : ℤ
  w : ℤ
  h : ℤ
deriving DecidableEq, Repr

/-- `pygame.Rect.colliderect`: strict overlap on both axes. -/
def Rect.collide (a b : Rect) : Bool :=
  decide (a.x < b.x + b.w) && decide (a.x + a.w > b.x) &&
  decide (a.y < b.y + b.h) && decide (a.y + a.h > b.y)

/-- `Axis` enum of `entities.py`. -/
inductive Axis
  | X
  | Y
deriving DecidableEq

/-- The kinematic state of an `Actor` that `Actor.update` reads and writes.
`width`/`height` are the rect extent (`TILE_SIZE` square for every actor). -/
structure ActorState where
  pos : Vec
  vel : Vec
  facing : Vec
  width : ℤ
  height : ℤ
  killed : Bool
deriving DecidableEq, Repr

def ActorState.rect (a : ActorState) : Rect := ⟨a.pos.x, a.pos.y, a.width, a.height⟩

/-- `pg.sprite.spritecollide(self, check_group, False)`: the members of the
group whose rects overlap the actor's rect, in group order. -/
def spritecollide (a : ActorState) (group : List Rect) : List Rect :=
  group.filter (fun r => Rect.collide a.rect r)

/-- `Actor.collide_and_stop`: on a hit along the given axis, clamp position
against the first hit (trailing edge to leading edge for positive velocity,
leading edge to trailing edge for negative velocity) and zero that axis'
velocity.  Returns the new state and whether a hit was registered. -/
def collide_and_stop (a : ActorState) (check_group : List Rect) (dir : Axis) :
    ActorState × Bool :=
  match spritecollide a check_group with
  | [] => (a, false)
  | hit :: _ =>
    match dir with
    | Axis.X =>
      let newx : ℤ :=
        if a.vel.x > 0 then hit.x - a.width
        else if a.vel.x < 0 then hit.x + hit.w
        else a.pos.x
      ({ a with pos := ⟨newx, a.pos.y⟩, vel := ⟨0, a.vel.y⟩ }, true)
    | Axis.Y =>
      let newy : ℤ :=
        if a.vel.y > 0 then hit.y - a.height
        else if a.vel.y < 0 then hit.y + hit.h
        else a.pos.y
      ({ a with pos := ⟨a.pos.x, newy⟩, vel := ⟨a.vel.x, 0⟩ }, true)

/-- The body of the `for killer in self.killed_by` loop of
`Actor.check_fatal_collisions`: collide-and-stop along X then Y against the
killer group; on a hit on either axis zero the whole velocity and latch the
`killed` flag. -/
def fatal_step (sk : ActorState × Bool) (killer : List Rect) : ActorState × Bool :=
  let s1 := collide_and_stop sk.1 killer Axis.X
  let s2 := collide_and_stop s1.1 killer Axis.Y
  if s1.2 || s2.2 then ({ s2.1 with vel := Vec.zero }, true) else (s2.1, sk.2)

/-- `Actor.check_fatal_collisions`: run the axis-separated test against every
`killed_by` group; on any hit zero the whole velocity and latch `killed`. -/
def check_fatal_collisions (a : ActorState) (killed_by : List (List Rect)) :
    ActorState × Bool :=
  if killed_by.isEmpty then (a, false)
  else killed_by.foldl fatal_step (a, false)

/-- One axis of the snap-to-grid correction of the `entities/` revision:
`delta = (p - offset) % TILE_SIZE; p -= delta; if delta > TILE_SIZE/2: p += TILE_SIZE`
(offset is 0 for x and `INFO_HEIGHT` for y; `%` is Python's nonnegative mod). -/
def snap_axis (offset p : ℤ) : ℤ :=
  let delta := (p - offset) % TILE_SIZE
  let p1 := p - delta
  if delta > TILE_SIZE / 2 then p1 + TILE_SIZE else p1

/-- The snap-to-grid step of `Actor.update` (`entities/entities.py`): each
axis whose velocity is exactly zero is corrected toward a tile boundary. -/
def snap_to_grid_step (a : ActorState) : ActorState :=
  { a with
    pos :=
      ⟨if a.vel.x = 0 then snap_axis 0 a.pos.x else a.pos.x,
       if a.vel.y = 0 then snap_axis INFO_HEIGHT a.pos.y else a.pos.y⟩ }

/-- The per-tick context `Actor.update` reads: `game.dt`, the actor's
`snap_to_grid` flag (always false in the flat revision), and the member rects
of the groups in `stopped_by` and `killed_by`. -/
structure UpdateConfig where
  dt : ℤ
  snap : Bool
  stopped_by : List (List Rect)
  killed_by : List (List Rect)

/-- `pos += vel * dt` followed by the optional snap-to-grid correction. -/
def integrate_and_snap (cfg : UpdateConfig) (a : ActorState) : ActorState :=
  let a1 := { a with pos := a.pos + Vec.scale cfg.dt a.vel }
  if cfg.snap then snap_to_grid_step a1 else a1

/-- The state and kill flag right after the fatal-collision check, before any
`stopped_by` resolution. -/
def fatal_stage (cfg : UpdateConfig) (a : ActorState) : ActorState × Bool :=
  check_fatal_collisions (integrate_and_snap cfg a) cfg.killed_by

/-- The stop-collision loop of `Actor.update`: for each `stopped_by` group,
resolve the X axis then the Y axis. -/
def stop_pass (stopped_by : List (List Rect)) (a : ActorState) : ActorState :=
  stopped_by.foldl
    (fun s g => (collide_and_stop (collide_and_stop s g Axis.X).1 g Axis.Y).1) a

/-- `Actor.update`: integrate, snap, record the fatal-check outcome in
`killed`, and run the stop-collision loop only when not killed. -/
def Actor.update (cfg : UpdateConfig) (a : ActorState) : ActorState :=
  let fk := fatal_stage cfg a
  let a2 := { fk.1 with killed := fk.2 }
  if fk.2 then a2 else stop_pass cfg.stopped_by a2

/- Adjacency and the push-chain resolver (`entities/actors.py`). -/

/-- A sprite as seen by the neighbour test and ratio collision: its `pos`
(top-left, equal to the rect corner for grid entities) with a TILE_SIZE
square rect. -/
structure Ent where
  pos : Vec
deriving DecidableEq, Repr

def Ent.rect (e : Ent) : Rect := ⟨e.pos.x, e.pos.y, TILE_SIZE, TILE_SIZE⟩

/-- `is_actor_neighbour_in_direction`: whether
`(actor2.pos - actor1.pos) - direction * TILE_SIZE` has length at most
`tolerance`.  The Euclidean-norm comparison is stated on squares, which is
equivalent since both sides are nonnegative. -/
def is_actor_neighbour_in_direction (p1 p2 direction : Vec) (tolerance : ℤ) : Bool :=
  let d : Vec := (p2 - p1) - Vec.scale TILE_SIZE direction
  decide (d.x ^ 2 + d.y ^ 2 ≤ tolerance ^ 2)

/-- `pygame.sprite.collide_rect_ratio(num/den)`: both rects are inflated
about their centers by the ratio and then tested with `colliderect`.  The
four strict inequalities are stated multiplied through by `2 * den`:
the inflated left edge `x - w*(num-den)/(2*den)` becomes
`2*den*x - w*(num-den)` and the inflated right edge becomes
`2*den*x + w*(num+den)`. -/
def scaled_left (num den x w : ℤ) : ℤ := 2 * den * x - w * (num - den)

def scaled_right (num den x w : ℤ) : ℤ := 2 * den * x + w * (num + den)

def collide_rect_scaled (num den : ℤ) (a b : Rect) : Bool :=
  decide (scaled_left num den a.x a.w < scaled_right num den b.x b.w) &&
  decide (scaled_right num den a.x a.w > scaled_left num den b.x b.w) &&
  decide (scaled_left num den a.y a.h < scaled_right num den b.y b.h) &&
  decide (scaled_right num den a.y a.h > scaled_left num den b.y b.h)

/-- The sub-kinds of pushable blocks (`Block`, `Diamond`, `EggBlock`). -/
inductive BlockKind
  | plain
  | diamond
  | egg
deriving DecidableEq, Repr

/-- The effect of a push on the pushed block and the game, as observed after
`Block.respond_to_push` returns: the block's velocity, its memberships in the
stationary `game.blocks` and `game.moving_blocks` groups, whether it is still
alive (`kill()` removes it from every group), the game score, and whether a
`ScoreMarker` was spawned.  Before the push the block is a member of
`game.blocks` and not of `game.moving_blocks`. -/
structure PushResult where
  vel : Vec
  inBlocks : Bool
  inMoving : Bool
  alive : Bool
  score : ℤ
  markerSpawned : Bool
deriving DecidableEq, Repr

/-- The `blocking` list of `Block.respond_to_push`: ratio-1.1 rect hits from
`game.blocks` (which still contains the pushed block itself) and `game.walls`,
filtered to direction-neighbours of the pushed block. -/
def push_blocking (selfEnt : Ent) (blocks walls : List Ent) (direction : Vec) :
    List Ent :=
  let hits :=
    blocks.filter (fun b => collide_rect_scaled 11 10 selfEnt.rect b.rect) ++
    walls.filter (fun wl => collide_rect_scaled 11 10 selfEnt.rect wl.rect)
  hits.filter
    (fun h => is_actor_neighbour_in_direction selfEnt.pos h.pos direction
      NEIGHBOUR_TOLERANCE)

/-- `blocked_push_response` of each kind: plain `Block` calls `self.kill()`;
`Diamond` overrides it with `pass`; `EggBlock` adds `EGG_BREAK_POINTS` to the
score, spawns a `ScoreMarker` and calls `self.kill()`. -/
def blocked_push_response (kind : BlockKind) (selfVel : Vec) (score : ℤ) :
    PushResult :=
  match kind with
  | BlockKind.plain => ⟨selfVel, false, false, false, score, false⟩
  | BlockKind.diamond => ⟨selfVel, true, false, true, score, false⟩
  | BlockKind.egg => ⟨selfVel, false, false, false, score + EGG_BREAK_POINTS, true⟩

/-- `Block.respond_to_push`: if nothing blocks the path, set
`vel = BLOCK_SPEED * direction` and move the block from `game.blocks` into
`game.moving_blocks`; otherwise run the kind's break response. -/
def respond_to_push (kind : BlockKind) (selfEnt : Ent) (selfVel : Vec)
    (blocks walls : List Ent) (score : ℤ) (direction : Vec) : PushResult :=
  if (push_blocking selfEnt blocks walls direction).isEmpty then
    ⟨Vec.scale BLOCK_SPEED direction, false, true, true, score, false⟩
  else blocked_push_response kind selfVel score

/- `Block.update` and the moving-set membership fix. -/

/-- A block's per-tick state: kinematics plus its membership in the
`game.moving_blocks` and stationary `game.blocks` groups. -/
structure BlockState where
  actor : ActorState
  inMoving : Bool
  inBlocks : Bool
deriving DecidableEq, Repr

/-- The first lines of `Block.update`: when the velocity magnitude is zero
and the block is in `game.moving_blocks`, move it back into `game.blocks`. -/
def moving_membership_fix (b : BlockState) : BlockState :=
  if b.actor.vel = Vec.zero then
    if b.inMoving then { b with inMoving := false, inBlocks := true } else b
  else b

/-- `Block.update`: the membership fix runs first, then `super().update()`
(the collision pass) on the kinematic state. -/
def Block.update (cfg : UpdateConfig) (b : BlockState) : BlockState :=
  let b1 := moving_membership_fix b
  { b1 with actor := Actor.update cfg b1.actor }

/- The player death sequence (`actors.py` flat revision) and the countdown
check of `Game.run_game`. -/

/-- Player state: kinematics, the input freeze, the death countdown and the
game's remaining lives (mutated only by the player's death sequence). -/
structure PlayerState where
  actor : ActorState
  frozen : Bool
  death_timer : Option ℤ
  lives : ℤ
deriving DecidableEq, Repr

/-- `Player.get_keys`: the per-tick input snapshot, abstracted to the arrow
direction currently held (`none` = no arrow key): velocity is zeroed and then
set to `facing * PLAYER_SPEED` for the held direction.  The push action is
not modelled here (it does not interact with the death sequence). -/
def get_keys (input : Option Vec) (a : ActorState) : ActorState :=
  match input with
  | none => { a with vel := Vec.zero }
  | some d => { a with facing := d, vel := Vec.scale PLAYER_SPEED d }

/-- The kinematic part of `Player.update`: input is processed only when not
frozen, then `super().update()` runs. -/
def player_kinematics (cfg : UpdateConfig) (input : Option Vec)
    (p : PlayerState) : ActorState :=
  Actor.update cfg (if p.frozen then p.actor else get_keys input p.actor)

/-- `Player.update` after the kinematic step: while the death countdown is
set, decrement it; otherwise, if this tick's collision pass killed the
player, start the death sequence (decrement lives, freeze input, set the
countdown to `DEATH_TIME`). -/
def Player.update (cfg : UpdateConfig) (input : Option Vec) (p : PlayerState) :
    PlayerState :=
  let a1 := player_kinematics cfg input p
  match p.death_timer with
  | some t => { p with actor := a1, death_timer := some (t - 1) }
  | none =>
    if a1.killed then
      { p with actor := a1, lives := p.lives - 1, frozen := true,
               death_timer := some DEATH_TIME }
    else { p with actor := a1 }

/-- The surrounding game state read by `Game.run_game`'s countdown check. -/
structure GameState where
  player : PlayerState
  gameOver : Bool
  levelReset : Bool
deriving DecidableEq, Repr

/-- `Game.setup_play(reset=True)` as it affects the player: the level is
rebuilt and a fresh `Player` is created at the level-start anchor with no
death countdown and input unfrozen; `game.lives` is left as it is. -/
def reset_player (startPos : Vec) (p : PlayerState) : PlayerState :=
  { actor := ⟨startPos, Vec.zero, ⟨0, 1⟩, TILE_SIZE, TILE_SIZE, false⟩,
    frozen := false, death_timer := none, lives := p.lives }

/-- One pass of `Game.run_game`'s running branch: update the player, then
`if player.death_timer == 0: if lives == 0: GAME_OVER else setup_play(reset)`. -/
def game_tick (cfg : UpdateConfig) (startPos : Vec) (input : Option Vec)
    (g : GameState) : GameState :=
  let p := Player.update cfg input g.player
  if p.death_timer = some 0 then
    if p.lives = 0 then { player := p, gameOver := true, levelReset := false }
    else { player := reset_player startPos p, gameOver := false, levelReset := true }
  else { player := p, gameOver := g.gameOver, levelReset := false }

/- Enemy AI, stun and death/respawn (`entities/actors.py`). -/

/-- The sprite groups an enemy's `stopped_by`/`killed_by` lists can point to.
`playerOnly` is the ad-hoc group holding only the player, built by `stun`. -/
inductive GroupId
  | walls
  | blocks
  | movingBlocks
  | playerOnly
deriving DecidableEq, Repr

/-- `self.initial_stopped_by = list(self.stopped_by)` taken in
`Enemy.__init__` before `game.blocks` is appended: the walls-only list. -/
def initial_stopped_by : List GroupId := [GroupId.walls]

/-- `self.reset_stopped_by = list(self.stopped_by)` taken after
`game.blocks` is appended: the full obstacle list. -/
def reset_stopped_by : List GroupId := [GroupId.walls, GroupId.blocks]

/-- `self.initial_killed_by = list(self.killed_by)`: moving blocks only. -/
def initial_killed_by : List GroupId := [GroupId.movingBlocks]

/-- Enemy state: kinematics, group-list snapshots, the two countdowns, the
death counter, the spawn anchor (grid coordinates) and the game score as
mutated by this enemy's updates.  `STUNNED_TIME` and `RESPAWN_IMMUNITY` are
imported by `entities/actors.py` but absent from `settings.py` under `src/`;
they are passed as parameters below. -/
structure EnemyState where
  actor : ActorState
  stopped_by : List GroupId
  killed_by : List GroupId
  respawn_timer : Option ℤ
  stunned_timer : Option ℤ
  deaths : ℤ
  starting_x : ℤ
  starting_y : ℤ
  inEnemies : Bool
  inStunned : Bool
  hunt : Bool
  point_value : ℤ
  score : ℤ
deriving DecidableEq, Repr

/-- `Actor.set_position`: place the rect and pos at grid cell `(x, y)`,
offset down by `INFO_HEIGHT`. -/
def set_position (x y : ℤ) (a : ActorState) : ActorState :=
  { a with pos := ⟨x * TILE_SIZE, y * TILE_SIZE + INFO_HEIGHT⟩ }

/-- `Enemy.stun` with `wall_check=False` (the Diamond-bonus path): start the
stun countdown, move the enemy from `game.enemies` into
`game.stunned_enemies`, zero its velocity and narrow `killed_by` to the
player-only group. -/
def Enemy.stun (stunnedTime : ℤ) (e : EnemyState) : EnemyState :=
  { e with stunned_timer := some stunnedTime, inEnemies := false,
           inStunned := true, actor := { e.actor with vel := Vec.zero },
           killed_by := [GroupId.playerOnly] }

/-- `Enemy.stun_update`, called when `stunned_timer = some t`: decrement the
countdown; on reaching zero, move back into `game.enemies` and restore
`killed_by` to its initial value. -/
def stun_update (t : ℤ) (e : EnemyState) : EnemyState :=
  let t1 := t - 1
  if t1 = 0 then
    { e with stunned_timer := none, inStunned := false, inEnemies := true,
             killed_by := initial_killed_by }
  else { e with stunned_timer := some t1 }

/-- `Enemy.die_and_respawn`: restore `killed_by`, add
`point_value * score_multiplier` to the score, count the death, reposition to
the spawn anchor, start the respawn-immunity countdown and set `stopped_by`
to the walls-only list. -/
def die_and_respawn (mult respawnImmunity : ℤ) (e : EnemyState) : EnemyState :=
  { e with killed_by := initial_killed_by,
           score := e.score + e.point_value * mult,
           deaths := e.deaths + 1,
           actor := set_position e.starting_x e.starting_y e.actor,
           respawn_timer := some respawnImmunity,
           stopped_by := initial_stopped_by }

/-- The i-th entry of `turn_options` in `Enemy.choose_new_direction`:
index 0 is the reverse of the current facing, indices 1 and 2 are the two
directions perpendicular to it. -/
def turn_option (facing : Vec) (i : Fin 3) : Vec :=
  if i.val = 0 then Vec.neg facing
  else if i.val = 1 then (if facing.x = 0 then ⟨1, 0⟩ else ⟨0, 1⟩)
  else (if facing.x = 0 then ⟨-1, 0⟩ else ⟨0, -1⟩)

/-- The player-ward direction of `Enemy.choose_new_direction`: compare the
absolute x and y offsets to the player and head along the dominant axis,
signed toward the player. -/
def chase_direction (pos playerPos : Vec) : Vec :=
  let x := pos.x - playerPos.x
  let y := pos.y - playerPos.y
  if |x| > |y| then (if x > 0 then ⟨-1, 0⟩ else ⟨1, 0⟩)
  else (if y > 0 then ⟨0, -1⟩ else ⟨0, 1⟩)

/-- `Enemy.choose_new_direction`.  The two RNG draws are inputs:
`randTurnIdx` is `np.random.randint(3)` and `randBelowIQ` is the truth value
of `np.random.random() < ENEMY_IQ`.  If the player-ward direction equals the
facing before the collision, return the random candidate; otherwise return
the player-ward direction when the IQ draw succeeds or `hunt` is set, else
the random candidate. -/
def choose_new_direction (facing init_facing pos playerPos : Vec) (hunt : Bool)
    (randTurnIdx : Fin 3) (randBelowIQ : Bool) : Vec :=
  let random_turn := turn_option facing randTurnIdx
  let chase := chase_direction pos playerPos
  if chase = init_facing then random_turn
  else if randBelowIQ || hunt then chase
  else random_turn

/-- `Enemy.update`.  `env` resolves a group id to its member rects for this
tick's collision checks.  `respawnImmunity` stands for the
`RESPAWN_IMMUNITY` constant (absent from `settings.py` under `src/`). -/
def Enemy.update (env : GroupId → List Rect) (dt : ℤ) (playerPos : Vec)
    (randTurnIdx : Fin 3) (randBelowIQ : Bool) (respawnImmunity : ℤ)
    (e : EnemyState) : EnemyState :=
  let init_facing := e.actor.facing
  let cfg : UpdateConfig := ⟨dt, true, e.stopped_by.map env, e.killed_by.map env⟩
  let a := Actor.update cfg e.actor
  let e1 := { e with actor := a }
  match e1.stunned_timer with
  | some t =>
    let e2 := stun_update t e1
    if e2.actor.killed then
      { die_and_respawn 2 respawnImmunity e2 with stunned_timer := none }
    else e2
  | none =>
    let e2 :=
      if a.vel = Vec.zero then
        let nf := choose_new_direction a.facing init_facing a.pos playerPos
          e1.hunt randTurnIdx randBelowIQ
        { e1 with actor := { a with facing := nf, vel := Vec.scale ENEMY_SPEED nf } }
      else e1
    if e2.respawn_timer = none ∧ e2.actor.killed = true then
      die_and_respawn 1 respawnImmunity e2
    else
      match e2.respawn_timer with
      | some t =>
        if t = 0 then { e2 with respawn_timer := none }
        else if e2.actor.killed = false then
          { e2 with respawn_timer := some (t - 1), stopped_by := reset_stopped_by }
        else e2
      | none => e2

/- The Diamond alignment-bonus check (`Diamond.update`). -/

/-- The firing condition of the check in `Diamond.update`: SOME diamond's
ratio-1.2 `spritecollide` against `game.diamonds` (which includes the diamond
itself) hits every diamond (`any(hits)` over the per-diamond counts). -/
def diamond_lineup_condition (diamonds : List Rect) : Bool :=
  diamonds.any
    (fun s =>
      decide ((diamonds.filter (fun d => collide_rect_scaled 6 5 s d)).length =
        diamonds.length))

/-- Modelled from the spec: "every diamond instance mutually overlaps
(enlarged rectangle test) with every other diamond" — the ALL-pairs condition
the spec states, for comparison with the source's any-based condition. -/
def all_mutually_overlap (diamonds : List Rect) : Bool :=
  diamonds.all (fun a => diamonds.all (fun b => collide_rect_scaled 6 5 a b))

/-- The observable effect of the alignment check: the game score, whether a
`ScoreMarker` was spawned, and whether `stun()` was invoked on every member
of `game.enemies`. -/
structure DiamondCheckResult where
  score : ℤ
  markerSpawned : Bool
  enemiesStunned : Bool
deriving DecidableEq, Repr

/-- The body guarded by `if self.stopped:` in `Diamond.update` (lines
181-204): when the condition holds, add `DIAMOND_LINEUP_BONUS` (absent from
`settings.py` under `src/`; passed as `bonus`), spawn a marker and stun every
enemy; otherwise do nothing.  As `src/` stands this body is unreachable: see
`Diamond.update_check_stage` below. -/
def diamond_lineup_check (bonus score : ℤ) (diamonds : List Rect) :
    DiamondCheckResult :=
  if diamond_lineup_condition diamonds then ⟨score + bonus, true, true⟩
  else ⟨score, false, false⟩

/-- The outcome of the post-`super().update()` stage of `Diamond.update`:
either the `AttributeError` Python raises when an instance attribute is
missing, or the check's observable effects. -/
inductive DiamondUpdateResult
  | attributeError
  | checked (r : DiamondCheckResult)
deriving DecidableEq, Repr

/-- The value of the `stopped` attribute as `src/` stands: it is read by
`Diamond.update` (`if self.stopped:`, entities/actors.py line 179) but never
assigned anywhere under `src/` (not in `Actor`, `Block` or `Diamond`), so
the lookup has no value. -/
def stopped_attr_in_src : Option Bool := none

/-- The alignment-check stage of `Diamond.update` after `super().update()`:
reading the missing `stopped` attribute raises `AttributeError`; were the
attribute present, a true value would run `diamond_lineup_check` and a false
value would skip it. -/
def Diamond.update_check_stage (stopped : Option Bool) (bonus score : ℤ)
    (diamonds : List Rect) : DiamondUpdateResult :=
  match stopped with
  | none => DiamondUpdateResult.attributeError
  | some b =>
    if b then DiamondUpdateResult.checked (diamond_lineup_check bonus score diamonds)
    else DiamondUpdateResult.checked ⟨score, false, false⟩

/- The level loader (`level.py`). -/

/-- The entity kinds of the codebase.  `diamond` and `egg` exist as classes
but no level token maps to them. -/
inductive SpriteKind
  | block
  | player
  | enemy
  | diamond
  | egg
deriving DecidableEq, Repr

/-- The `ELEMENTS` token table of `level.py`. -/
def ELEMENTS : List (Char × Option SpriteKind) :=
  [('.', none), ('0', some SpriteKind.block), ('1', some SpriteKind.player),
   ('2', some SpriteKind.enemy), ('\n', none)]

/-- `char in ELEMENTS` (key membership). -/
def recognized (c : Char) : Bool := ELEMENTS.any (fun e => e.1 == c)

/-- `ELEMENTS[char]` on a validated grid character. -/
def char_sprite (c : Char) : Option SpriteKind :=
  match ELEMENTS.find? (fun e => e.1 == c) with
  | some e => e.2
  | none => none

/-- The characters Python's `str.strip()` removes (ASCII whitespace). -/
def PY_WHITESPACE : List Char := [' ', '\t', '\n', '\x0b', '\x0c', '\r']

def is_py_space (c : Char) : Bool := PY_WHITESPACE.contains c

/-- Python's `line.strip()`: drop leading and trailing whitespace. -/
def strip (l : List Char) : List Char :=
  ((l.dropWhile is_py_space).reverse.dropWhile is_py_space).reverse

/-- The unrecognised characters of a stripped line
(`[c for c in stripped_line if c not in ELEMENTS]`). -/
def bad_tokens (l : List Char) : List Char := l.filter (fun c => !(recognized c))

/-- The failure modes of `Level.parse_input_file`: the two `assert`s on the
grid shape, the `RuntimeError` naming the offending tokens and line, and the
`NameError` Python raises for an empty file (`n_cols` never bound). -/
inductive ParseError
  | inconsistentWidth
  | unrecognisedTokens (tokens : List Char) (line : Nat)
  | gridTooHigh
  | gridTooWide
  | undefinedWidth
deriving DecidableEq, Repr

/-- The state `parse_input_file` leaves on success: `element_grid`,
`element_height`, `element_width`. -/
structure ParsedLevel where
  element_grid : List (List Char)
  element_height : Nat
  element_width : Nat
deriving DecidableEq, Repr

/-- The loop body and final asserts of `Level.parse_input_file`, with the
running line count, the width bound on the first line (`none` before it) and
the accumulated grid rows (reversed). -/
def parse_lines :
    List (List Char) → Nat → Option Nat → List (List Char) →
    Except ParseError ParsedLevel
  | [], n_lines, n_cols, acc =>
    if n_lines > MAX_GRID_HEIGHT - 2 then Except.error ParseError.gridTooHigh
    else
      match n_cols with
      | none => Except.error ParseError.undefinedWidth
      | some c =>
        if c > MAX_GRID_WIDTH - 2 then Except.error ParseError.gridTooWide
        else Except.ok ⟨acc.reverse, n_lines, c⟩
  | line :: rest, n_lines, n_cols, acc =>
    let s := strip line
    match n_cols with
    | none =>
      if bad_tokens s ≠ [] then
        Except.error (ParseError.unrecognisedTokens (bad_tokens s) (n_lines + 1))
      else parse_lines rest (n_lines + 1) (some s.length) (s :: acc)
    | some c =>
      if s.length ≠ c then Except.error ParseError.inconsistentWidth
      else if bad_tokens s ≠ [] then
        Except.error (ParseError.unrecognisedTokens (bad_tokens s) (n_lines + 1))
      else parse_lines rest (n_lines + 1) (some c) (s :: acc)

/-- `Level.parse_input_file` over the file's lines. -/
def parse_input_file (lines : List (List Char)) : Except ParseError ParsedLevel :=
  parse_lines lines 0 none []

/-- One row of `Level._load_sprites`: walk the characters, creating the
mapped sprite kind (if any) at 1-based, wall-offset coordinates. -/
def load_row (rowIdx : Nat) (cols : List Char) (colIdx : Nat) :
    List (SpriteKind × Nat × Nat) :=
  match cols with
  | [] => []
  | c :: rest =>
    match char_sprite c with
    | some k => (k, rowIdx, colIdx) :: load_row rowIdx rest (colIdx + 1)
    | none => load_row rowIdx rest (colIdx + 1)

def load_rows (rows : List (List Char)) (rowIdx : Nat) :
    List (SpriteKind × Nat × Nat) :=
  match rows with
  | [] => []
  | r :: rest => load_row rowIdx r 1 ++ load_rows rest (rowIdx + 1)

/-- `Level._load_sprites`: the placements created from a parsed grid; the
`player`-kind placements additionally bind `game.player`. -/
def load_sprites (grid : List (List Char)) : List (SpriteKind × Nat × Nat) :=
  load_rows grid 1

/- Concrete instances used by witnesses and counterexamples. -/

/-- A wall tile at grid cell (0, 0). -/
def wall00 : Rect := ⟨0, 320, 640, 640⟩

/-- A wall tile at grid cell (2, 0). -/
def wall20 : Rect := ⟨1280, 320, 640, 640⟩

/-- A wall tile at grid cell (2, 1). -/
def wall21 : Rect := ⟨1280, 960, 640, 640⟩

/-- An actor occupying grid cell (0, 0) with zero velocity. -/
def actor_still : ActorState := ⟨⟨0, 320⟩, ⟨0, 0⟩, ⟨0, 1⟩, 640, 640, false⟩

/-- An actor at grid cell (1, 0) moving right at `BLOCK_SPEED`. -/
def actor_right : ActorState := ⟨⟨640, 320⟩, ⟨10, 0⟩, ⟨1, 0⟩, 640, 640, false⟩

/-- A tick with a lethal group exactly covering `actor_still`. -/
def cfg_fatal : UpdateConfig := ⟨16, false, [], [[wall00]]⟩

/-- A tick whose only stopper coincides with the stationary `actor_still`. -/
def cfg_overlap : UpdateConfig := ⟨16, true, [[wall00]], []⟩

/-- A tick with a single wall two tiles to the right of the origin. -/
def cfg_wall_right : UpdateConfig := ⟨16, false, [[wall20]], []⟩

/-- A tile-sized rect at grid cell (1, 0). -/
def wall10 : Rect := ⟨640, 320, 640, 640⟩

/-- A tile-sized rect half a tile east of grid cell (0, 0), overlapping
`wall10` (a mid-push block's rect can sit off-grid like this). -/
def wall_half : Rect := ⟨320, 320, 640, 640⟩

/-- An actor at grid cell (0, 0) moving right at `BLOCK_SPEED`. -/
def actor_east : ActorState := ⟨⟨0, 320⟩, ⟨10, 0⟩, ⟨1, 0⟩, 640, 640, false⟩

/-- A tick whose single stopper group holds two mutually overlapping
obstacles east of the origin. -/
def cfg_two_obstacles : UpdateConfig := ⟨16, false, [[wall10, wall_half]], []⟩

/-- A tick that kills the actor against cell (1, 0) while a stopper occupies
cell (0, 0). -/
def cfg_kill_into_wall : UpdateConfig := ⟨16, false, [[wall00]], [[wall10]]⟩

/-- A block at grid cell (1, 1), the pushed block of the push witnesses. -/
def push_self : Ent := ⟨⟨640, 960⟩⟩

/-- A block at grid cell (2, 1), directly east of `push_self`. -/
def push_ahead : Ent := ⟨⟨1280, 960⟩⟩

/-- A moving block (eastward at `BLOCK_SPEED`) at grid cell (1, 1), member of
the moving set. -/
def block_moving : BlockState :=
  ⟨⟨⟨640, 960⟩, ⟨10, 0⟩, ⟨1, 0⟩, 640, 640, false⟩, true, false⟩

/-- A block at rest at grid cell (1, 1), still recorded in the moving set. -/
def block_rest_moving : BlockState :=
  ⟨⟨⟨640, 960⟩, ⟨0, 0⟩, ⟨1, 0⟩, 640, 640, false⟩, true, false⟩

/-- A tick with a wall one tile east of grid cell (1, 1). -/
def cfg_block_wall : UpdateConfig := ⟨16, true, [[wall21]], []⟩

/-- An enemy-group rect covering grid cell (1, 0). -/
def enemy_rect10 : Rect := ⟨640, 320, 640, 640⟩

/-- A player tick (flat revision: no snap) whose lethal enemy group covers
grid cell (1, 0). -/
def cfg_enemy_overlap : UpdateConfig := ⟨16, false, [[]], [[enemy_rect10]]⟩

/-- An Active player standing on grid cell (1, 0) with 2 lives. -/
def player_active : PlayerState :=
  ⟨⟨⟨640, 320⟩, ⟨0, 0⟩, ⟨0, 1⟩, 640, 640, false⟩, false, none, 2⟩

/-- A dying player one tick from countdown expiry, no lives left. -/
def player_expiring : PlayerState :=
  ⟨⟨⟨640, 320⟩, ⟨0, 0⟩, ⟨0, 1⟩, 640, 640, true⟩, true, some 1, 0⟩

/-- A dying player one tick from countdown expiry, one life left. -/
def player_expiring_lives : PlayerState :=
  ⟨⟨⟨640, 320⟩, ⟨0, 0⟩, ⟨0, 1⟩, 640, 640, true⟩, true, some 1, 1⟩

def game_active : GameState := ⟨player_active, false, false⟩

def game_expiring : GameState := ⟨player_expiring, false, false⟩

def game_expiring_lives : GameState := ⟨player_expiring_lives, false, false⟩

/-- Three diamonds in a row on grid cells (0,0), (1,0), (2,0): each is a
ratio-1.2 neighbour of the middle one, but the outer two do not overlap each
other. -/
def diamonds_row3 : List Rect :=
  [⟨0, 320, 640, 640⟩, ⟨640, 320, 640, 640⟩, ⟨1280, 320, 640, 640⟩]

/-- Two adjacent diamonds, mutually overlapping under the ratio-1.2 test. -/
def diamonds_pair : List Rect := [⟨0, 320, 640, 640⟩, ⟨640, 320, 640, 640⟩]

/-- An obstacle environment with every group empty. -/
def env_empty : GroupId → List Rect := fun _ => []

/-- An enemy just respawned at grid cell (1, 1): two immunity ticks left,
walls-only `stopped_by`, moving down at `ENEMY_SPEED`. -/
def enemy_respawned : EnemyState :=
  ⟨⟨⟨640, 960⟩, ⟨0, 3⟩, ⟨0, 1⟩, 640, 640, false⟩, [GroupId.walls],
   [GroupId.movingBlocks], some 2, none, 1, 1, 1, true, false, false, 200, 200⟩

/-- The same enemy at the tick its immunity countdown reads zero. -/
def enemy_imm_end : EnemyState :=
  ⟨⟨⟨640, 960⟩, ⟨0, 3⟩, ⟨0, 1⟩, 640, 640, false⟩,
   [GroupId.walls, GroupId.blocks], [GroupId.movingBlocks], some 0, none, 1, 1,
   1, true, false, false, 200, 200⟩

end PenguinGame

/- Theorems. -/

namespace PenguinGame

theorem Vec.ext_iff (a b : Vec) : a = b ↔ a.x = b.x ∧ a.y = b.y := by
  cases a; cases b; simp

/-- `colliderect` as a proposition. -/
theorem Rect.collide_iff (a b : Rect) :
    Rect.collide a b = true ↔
      a.x < b.x + b.w ∧ a.x + a.w > b.x ∧ a.y < b.y + b.h ∧ a.y + a.h > b.y := by
  simp [Rect.collide, and_assoc]

/-- A collide-and-stop pass that registers no hit leaves the state unchanged. -/
theorem collide_and_stop_of_not_hit (a : ActorState) (g : List Rect) (d : Axis)
    (h : (collide_and_stop a g d).2 = false) : collide_and_stop a g d = (a, false) := by
  unfold collide_and_stop at h ⊢
  cases hs : spritecollide a g with
  | nil => rfl
  | cons hd tl =>
    rw [hs] at h
    cases d <;> simp at h

/-- Once the fatal fold has latched a kill, the carried velocity is zero. -/
theorem fatal_fold_vel_zero (ks : List (List Rect)) (init : ActorState × Bool)
    (h0 : init.2 = true → init.1.vel = Vec.zero) :
    (ks.foldl fatal_step init).2 = true → (ks.foldl fatal_step init).1.vel = Vec.zero := by
  induction ks generalizing init with
  | nil => simpa using h0
  | cons k ks ih =>
    simp only [List.foldl_cons]
    apply ih
    intro h2
    unfold fatal_step at h2 ⊢
    rcases hb :
        ((collide_and_stop init.1 k Axis.X).2 ||
          (collide_and_stop (collide_and_stop init.1 k Axis.X).1 k Axis.Y).2) with _ | _
    · have hx := (Bool.or_eq_false_iff.mp hb).1
      have hy := (Bool.or_eq_false_iff.mp hb).2
      simp only [hb, if_false, Bool.false_eq_true] at h2 ⊢
      rw [collide_and_stop_of_not_hit _ _ _ hx] at hy ⊢
      simp only at hy ⊢
      rw [collide_and_stop_of_not_hit _ _ _ hy]
      exact h0 h2
    · simp only [hb, if_true]

/-- A registered fatal collision leaves the actor with zero velocity. -/
theorem check_fatal_vel_zero (a : ActorState) (ks : List (List Rect))
    (h : (check_fatal_collisions a ks).2 = true) :
    (check_fatal_collisions a ks).1.vel = Vec.zero := by
  unfold check_fatal_collisions at h ⊢
  by_cases he : ks.isEmpty
  · simp [he] at h
  · simp only [he, if_false, Bool.false_eq_true] at h ⊢
    exact fatal_fold_vel_zero ks (a, false) (by intro hc; cases hc) h

/-- The fatal fold's kill flag latches: once true it stays true. -/
theorem fatal_fold_latch (ks : List (List Rect)) (init : ActorState × Bool)
    (h : init.2 = true) : (ks.foldl fatal_step init).2 = true := by
  induction ks generalizing init with
  | nil => simpa using h
  | cons k ks ih =>
    simp only [List.foldl_cons]
    apply ih
    unfold fatal_step
    rcases hb :
        ((collide_and_stop init.1 k Axis.X).2 ||
          (collide_and_stop (collide_and_stop init.1 k Axis.X).1 k Axis.Y).2) with _ | _
    · simp only [hb, if_false, Bool.false_eq_true]
      exact h
    · simp only [hb, if_true]

/-- A fatal fold that registers no kill leaves the actor state unchanged. -/
theorem fatal_fold_not_killed_id (ks : List (List Rect)) (init : ActorState × Bool)
    (h : (ks.foldl fatal_step init).2 = false) :
    (ks.foldl fatal_step init).1 = init.1 := by
  induction ks generalizing init with
  | nil => simp
  | cons k ks ih =>
    simp only [List.foldl_cons] at h ⊢
    have hstep : (fatal_step init k).2 = false := by
      rcases hs : (fatal_step init k).2 with _ | _
      · rfl
      · rw [fatal_fold_latch ks (fatal_step init k) hs] at h
        cases h
    have h1 : (fatal_step init k).1 = init.1 := by
      unfold fatal_step at hstep ⊢
      rcases hb :
          ((collide_and_stop init.1 k Axis.X).2 ||
            (collide_and_stop (collide_and_stop init.1 k Axis.X).1 k Axis.Y).2) with _ | _
      · have hx := (Bool.or_eq_false_iff.mp hb).1
        have hy := (Bool.or_eq_false_iff.mp hb).2
        simp only [hb, if_false, Bool.false_eq_true]
        rw [collide_and_stop_of_not_hit _ _ _ hx] at hy ⊢
        simp only at hy ⊢
        rw [collide_and_stop_of_not_hit _ _ _ hy]
      · simp only [hb, if_true] at hstep
        cases hstep
    rw [ih (fatal_step init k) h, h1]

/-- If `check_fatal_collisions` registers no kill, it is the identity on the
actor state. -/
theorem check_fatal_not_killed_id (a : ActorState) (ks : List (List Rect))
    (h : (check_fatal_collisions a ks).2 = false) :
    (check_fatal_collisions a ks).1 = a := by
  unfold check_fatal_collisions at h ⊢
  by_cases he : ks.isEmpty
  · simp [he]
  · simp only [he, if_false, Bool.false_eq_true] at h ⊢
    exact fatal_fold_not_killed_id ks (a, false) h

/-- Claim C1: in a single tick's `Actor.update`, if the axis-separated test
against the `killed_by` sets registers a hit on either axis, the actor ends
the tick with zero velocity and the `killed` flag set, and the update result
is exactly the post-fatal-check state — no `stopped_by` clamping is applied
in the same tick. -/
theorem fatal_hit_skips_stop_resolution (cfg : UpdateConfig) (a : ActorState)
    (h : (fatal_stage cfg a).2 = true) :
    (Actor.update cfg a).killed = true ∧
    (Actor.update cfg a).vel = Vec.zero ∧
    Actor.update cfg a = { (fatal_stage cfg a).1 with killed := true } := by
  have hv : (fatal_stage cfg a).1.vel = Vec.zero :=
    check_fatal_vel_zero (integrate_and_snap cfg a) cfg.killed_by h
  have h1 : Actor.update cfg a = { (fatal_stage cfg a).1 with killed := true } := by
    unfold Actor.update
    simp only [h, if_true]
  rw [h1]
  exact ⟨rfl, hv, rfl⟩

/-- Witness for C1: a stationary actor fully overlapped by a lethal tile is
killed, keeps the contact position and velocity zero, and skips clamping. -/
theorem fatal_hit_skips_stop_resolution_witness :
    (fatal_stage cfg_fatal actor_still).2 = true ∧
    ((Actor.update cfg_fatal actor_still).killed = true ∧
      (Actor.update cfg_fatal actor_still).vel = Vec.zero ∧
      Actor.update cfg_fatal actor_still =
        { (fatal_stage cfg_fatal actor_still).1 with killed := true }) :=
  ⟨by decide, fatal_hit_skips_stop_resolution cfg_fatal actor_still (by decide)⟩

/-- A collide-and-stop pass against a state not overlapping the single
obstacle is the identity. -/
theorem collide_and_stop_single_of_no_overlap (s : ActorState) (w : Rect) (d : Axis)
    (h : Rect.collide s.rect w = false) : collide_and_stop s [w] d = (s, false) := by
  unfold collide_and_stop spritecollide
  simp [h]

/-- The X pass against a single overlapped obstacle, with positive X
velocity: clamp the trailing edge to the obstacle's leading edge. -/
theorem collide_and_stop_x_hit_pos (s : ActorState) (w : Rect)
    (hc : Rect.collide s.rect w = true) (hv : s.vel.x > 0) :
    collide_and_stop s [w] Axis.X =
      ({ s with pos := ⟨w.x - s.width, s.pos.y⟩, vel := ⟨0, s.vel.y⟩ }, true) := by
  unfold collide_and_stop spritecollide
  simp [hc, hv]

/-- The X pass against a single overlapped obstacle, with negative X
velocity: clamp to the obstacle's trailing edge. -/
theorem collide_and_stop_x_hit_neg (s : ActorState) (w : Rect)
    (hc : Rect.collide s.rect w = true) (hv : s.vel.x < 0) :
    collide_and_stop s [w] Axis.X =
      ({ s with pos := ⟨w.x + w.w, s.pos.y⟩, vel := ⟨0, s.vel.y⟩ }, true) := by
  have hnp : ¬ s.vel.x > 0 := by omega
  unfold collide_and_stop spritecollide
  simp [hc, hv, hnp]

/-- The Y pass against a single overlapped obstacle, with positive Y
velocity. -/
theorem collide_and_stop_y_hit_pos (s : ActorState) (w : Rect)
    (hc : Rect.collide s.rect w = true) (hv : s.vel.y > 0) :
    collide_and_stop s [w] Axis.Y =
      ({ s with pos := ⟨s.pos.x, w.y - s.height⟩, vel := ⟨s.vel.x, 0⟩ }, true) := by
  unfold collide_and_stop spritecollide
  simp [hc, hv]

/-- The Y pass against a single overlapped obstacle, with negative Y
velocity. -/
theorem collide_and_stop_y_hit_neg (s : ActorState) (w : Rect)
    (hc : Rect.collide s.rect w = true) (hv : s.vel.y < 0) :
    collide_and_stop s [w] Axis.Y =
      ({ s with pos := ⟨s.pos.x, w.y + w.h⟩, vel := ⟨s.vel.x, 0⟩ }, true) := by
  have hnp : ¬ s.vel.y > 0 := by omega
  unfold collide_and_stop spritecollide
  simp [hc, hv, hnp]

/-- The X pass against a single obstacle with nonzero X velocity ends with no
overlap against that obstacle. -/
theorem collide_and_stop_x_resolves (s : ActorState) (w : Rect)
    (h : s.vel.x ≠ 0) :
    Rect.collide ((collide_and_stop s [w] Axis.X).1).rect w = false := by
  by_cases hc : Rect.collide s.rect w = true
  · rcases lt_trichotomy s.vel.x 0 with hneg | hzero | hpos
    · rw [collide_and_stop_x_hit_neg s w hc hneg]
      rw [Bool.eq_false_iff]
      intro hcol
      rcases (Rect.collide_iff _ _).mp hcol with ⟨h1, _, _, _⟩
      simp only [ActorState.rect] at h1
      omega
    · exact absurd hzero h
    · rw [collide_and_stop_x_hit_pos s w hc hpos]
      rw [Bool.eq_false_iff]
      intro hcol
      rcases (Rect.collide_iff _ _).mp hcol with ⟨_, h2, _, _⟩
      simp only [ActorState.rect] at h2
      omega
  · rw [Bool.not_eq_true] at hc
    rw [collide_and_stop_single_of_no_overlap s w Axis.X hc]
    exact hc

/-- The Y pass against a single obstacle with nonzero Y velocity ends with no
overlap against that obstacle. -/
theorem collide_and_stop_y_resolves (s : ActorState) (w : Rect)
    (h : s.vel.y ≠ 0) :
    Rect.collide ((collide_and_stop s [w] Axis.Y).1).rect w = false := by
  by_cases hc : Rect.collide s.rect w = true
  · rcases lt_trichotomy s.vel.y 0 with hneg | hzero | hpos
    · rw [collide_and_stop_y_hit_neg s w hc hneg]
      rw [Bool.eq_false_iff]
      intro hcol
      rcases (Rect.collide_iff _ _).mp hcol with ⟨_, _, h3, _⟩
      simp only [ActorState.rect] at h3
      omega
    · exact absurd hzero h
    · rw [collide_and_stop_y_hit_pos s w hc hpos]
      rw [Bool.eq_false_iff]
      intro hcol
      rcases (Rect.collide_iff _ _).mp hcol with ⟨_, _, _, h4⟩
      simp only [ActorState.rect] at h4
      omega
  · rw [Bool.not_eq_true] at hc
    rw [collide_and_stop_single_of_no_overlap s w Axis.Y hc]
    exact hc

/-- With zero X velocity the X pass never moves the actor: either there is no
hit, or the hit clamps nothing (both clamp guards are false). -/
theorem collide_and_stop_x_zero_id (s : ActorState) (w : Rect)
    (h : s.vel.x = 0) : (collide_and_stop s [w] Axis.X).1 = s := by
  by_cases hc : Rect.collide s.rect w = true
  · have h1 : ¬ s.vel.x > 0 := by omega
    have h2 : ¬ s.vel.x < 0 := by omega
    unfold collide_and_stop spritecollide
    simp only [List.filter_cons, List.filter_nil, hc, if_true]
    simp only [h1, h2, if_false]
    cases s with
    | mk pos vel facing width height killed =>
      cases pos; cases vel
      simp_all
  · rw [Bool.not_eq_true] at hc
    rw [collide_and_stop_single_of_no_overlap s w Axis.X hc]

/-- Integration and snap leave the velocity untouched. -/
theorem integrate_and_snap_vel (cfg : UpdateConfig) (a : ActorState) :
    (integrate_and_snap cfg a).vel = a.vel := by
  unfold integrate_and_snap snap_to_grid_step
  by_cases hs : cfg.snap <;> simp [hs]

/-- Counterexample to claim C2 as stated, in the three independent ways the
closure property fails.  (a) The axis clamp acts only when the velocity on
that axis is nonzero: a stationary actor whose box coincides with a member of
its `stopped_by` set is still overlapping it after `Actor.update`.  (b) Per
axis only `hits[0]` of each group is clamped against: an actor moving right
into a group holding two mutually overlapping obstacles is clamped against
the first and ends the tick still overlapping the second.  (c) A killed actor
skips stop-resolution entirely and can end the tick overlapping a stopper. -/
theorem stopped_overlap_persists_counterexample :
    (cfg_overlap.stopped_by = [[wall00]] ∧
      actor_still.vel = Vec.zero ∧
      Rect.collide (Actor.update cfg_overlap actor_still).rect wall00 = true) ∧
    (cfg_two_obstacles.stopped_by = [[wall10, wall_half]] ∧
      actor_east.vel ≠ Vec.zero ∧
      Rect.collide (Actor.update cfg_two_obstacles actor_east).rect wall_half =
        true) ∧
    (cfg_kill_into_wall.stopped_by = [[wall00]] ∧
      (Actor.update cfg_kill_into_wall actor_east).killed = true ∧
      Rect.collide (Actor.update cfg_kill_into_wall actor_east).rect wall00 =
        true) := by
  decide

/-- Claim C2, amended: the closure property holds only in the single-obstacle
case — for an actor whose `stopped_by` sets hold one obstacle in total, when
this tick's fatal check registers no hit and the actor's velocity is nonzero,
its bounding box does not overlap that obstacle after `Actor.update`.  Each
hypothesis is forced by a limb of the counterexample: the clamp skips
zero-velocity axes, clamps only the first hit per group per axis, and is
skipped entirely on a fatal tick. -/
theorem single_obstacle_resolution_closure (cfg : UpdateConfig) (a : ActorState)
    (w : Rect) (hstop : cfg.stopped_by = [[w]])
    (hkill : (fatal_stage cfg a).2 = false)
    (hvel : a.vel ≠ Vec.zero) :
    Rect.collide (Actor.update cfg a).rect w = false := by
  have hfat1 : (fatal_stage cfg a).1 = integrate_and_snap cfg a :=
    check_fatal_not_killed_id (integrate_and_snap cfg a) cfg.killed_by hkill
  have hfat : fatal_stage cfg a = (integrate_and_snap cfg a, false) := by
    rw [← hfat1, ← hkill]
  have hupd : Actor.update cfg a =
      stop_pass cfg.stopped_by { integrate_and_snap cfg a with killed := false } := by
    unfold Actor.update
    rw [hfat]
    rfl
  rw [hupd, hstop]
  unfold stop_pass
  simp only [List.foldl_cons, List.foldl_nil]
  set s0 : ActorState := { integrate_and_snap cfg a with killed := false } with hs0
  have hv0 : s0.vel = a.vel := by
    rw [hs0]
    show (integrate_and_snap cfg a).vel = a.vel
    exact integrate_and_snap_vel cfg a
  by_cases hx : s0.vel.x = 0
  · have hy : s0.vel.y ≠ 0 := by
      intro hy
      apply hvel
      rw [← hv0]
      cases hv : s0.vel
      simp [Vec.zero]
      constructor
      · rw [hv] at hx; exact hx
      · rw [hv] at hy; exact hy
    rw [collide_and_stop_x_zero_id s0 w hx]
    exact collide_and_stop_y_resolves s0 w hy
  · have h1 := collide_and_stop_x_resolves s0 w hx
    rw [collide_and_stop_single_of_no_overlap _ w Axis.Y h1]
    exact h1

/-- Witness for the amended C2: a rightward-moving actor that penetrates the
wall two tiles ahead registers no fatal hit and ends the tick clamped and
not overlapping it. -/
theorem single_obstacle_resolution_closure_witness :
    actor_right.vel ≠ Vec.zero ∧
    (fatal_stage cfg_wall_right actor_right).2 = false ∧
    Rect.collide (Actor.update cfg_wall_right actor_right).rect wall20 = false :=
  ⟨by decide, by decide,
    single_obstacle_resolution_closure cfg_wall_right actor_right wall20
      (by decide) (by decide) (by decide)⟩

/-- Claim C3: a push with no blocking direction-neighbour (ratio-1.1 hit from
the blocks and walls groups, filtered by the neighbour-in-direction test)
sets the block's velocity to `BLOCK_SPEED * direction` and moves it from the
stationary set into the moving set without touching score or liveness; a
blocked push never sets velocity and runs the kind's break response instead:
a plain Block is destroyed, a Diamond does nothing, and an EggBlock adds
`EGG_BREAK_POINTS` to the score, spawns a marker, and is destroyed. -/
theorem push_response_cases (kind : BlockKind) (selfEnt : Ent) (selfVel : Vec)
    (blocks walls : List Ent) (score : ℤ) (direction : Vec) :
    ((push_blocking selfEnt blocks walls direction).isEmpty = true →
      respond_to_push kind selfEnt selfVel blocks walls score direction =
        ⟨Vec.scale BLOCK_SPEED direction, false, true, true, score, false⟩) ∧
    ((push_blocking selfEnt blocks walls direction).isEmpty = false →
      (respond_to_push kind selfEnt selfVel blocks walls score direction).vel =
        selfVel ∧
      (respond_to_push kind selfEnt selfVel blocks walls score direction).inMoving =
        false ∧
      (kind = BlockKind.plain →
        respond_to_push kind selfEnt selfVel blocks walls score direction =
          ⟨selfVel, false, false, false, score, false⟩) ∧
      (kind = BlockKind.diamond →
        respond_to_push kind selfEnt selfVel blocks walls score direction =
          ⟨selfVel, true, false, true, score, false⟩) ∧
      (kind = BlockKind.egg →
        respond_to_push kind selfEnt selfVel blocks walls score direction =
          ⟨selfVel, false, false, false, score + EGG_BREAK_POINTS, true⟩)) := by
  constructor
  · intro he
    unfold respond_to_push
    simp [he]
  · intro he
    unfold respond_to_push
    simp only [he, Bool.false_eq_true, if_false]
    cases kind <;> simp [blocked_push_response]

/-- Witness for C3: with only the pushed block itself in the groups the push
moves it east; with a block one tile east the push is blocked and, for the
egg kind, breaks it for points. -/
theorem push_response_cases_witness :
    ((push_blocking push_self [push_self] [] ⟨1, 0⟩).isEmpty = true ∧
      respond_to_push BlockKind.plain push_self ⟨0, 0⟩ [push_self] [] 0 ⟨1, 0⟩ =
        ⟨⟨10, 0⟩, false, true, true, 0, false⟩) ∧
    ((push_blocking push_self [push_self, push_ahead] [] ⟨1, 0⟩).isEmpty = false ∧
      respond_to_push BlockKind.egg push_self ⟨0, 0⟩ [push_self, push_ahead] [] 0 ⟨1, 0⟩ =
        ⟨⟨0, 0⟩, false, false, false, 400, true⟩) := by
  constructor
  · refine ⟨by decide, ?_⟩
    have h :=
      (push_response_cases BlockKind.plain push_self ⟨0, 0⟩ [push_self] [] 0
        ⟨1, 0⟩).1 (by decide)
    rw [h]
    decide
  · refine ⟨by decide, ?_⟩
    have h :=
      ((push_response_cases BlockKind.egg push_self ⟨0, 0⟩ [push_self, push_ahead]
        [] 0 ⟨1, 0⟩).2 (by decide)).2.2.2.2 rfl
    rw [h]
    decide

/-- Counterexample to claim C4 as stated: a moving block whose velocity is
zeroed by this tick's collision pass is still a member of the moving-blocks
set when its update returns — the re-entry into the stationary set does not
happen on the same tick. -/
theorem moving_zero_vel_same_tick_counterexample :
    block_moving.inMoving = true ∧
    block_moving.actor.vel ≠ Vec.zero ∧
    (Block.update cfg_block_wall block_moving).actor.vel = Vec.zero ∧
    (Block.update cfg_block_wall block_moving).inMoving = true := by
  decide

/-- Claim C4, amended: the re-entry of a resting moving block into the
stationary set happens at the start of the block's NEXT update, before that
update's collision pass: the membership fix runs first and hands the
collision pass a state in which zero velocity implies non-membership in the
moving set; the pass itself never changes the memberships.  (On the tick in
which the velocity reaches zero the block remains in the moving set; see the
counterexample.) -/
theorem moving_block_reentry_before_pass (cfg : UpdateConfig) (b : BlockState) :
    ((moving_membership_fix b).actor.vel = Vec.zero →
      (moving_membership_fix b).inMoving = false) ∧
    ((moving_membership_fix b).actor.vel = Vec.zero → b.inMoving = true →
      (moving_membership_fix b).inBlocks = true) ∧
    Block.update cfg b =
      { moving_membership_fix b with
        actor := Actor.update cfg (moving_membership_fix b).actor } ∧
    (Block.update cfg b).inMoving = (moving_membership_fix b).inMoving ∧
    (Block.update cfg b).inBlocks = (moving_membership_fix b).inBlocks := by
  refine ⟨?_, ?_, rfl, rfl, rfl⟩
  · intro h
    unfold moving_membership_fix at h ⊢
    by_cases hv : b.actor.vel = Vec.zero
    · by_cases hm : b.inMoving <;> simp_all
    · simp only [hv, if_false] at h
  · intro h hm
    unfold moving_membership_fix at h ⊢
    by_cases hv : b.actor.vel = Vec.zero
    · simp_all
    · simp only [hv, if_false] at h

/-- Witness for the amended C4: a resting block still recorded in the moving
set is out of the moving set and back in the stationary set by the time its
next collision pass runs. -/
theorem moving_block_reentry_before_pass_witness :
    (moving_membership_fix block_rest_moving).inMoving = false ∧
    (moving_membership_fix block_rest_moving).inBlocks = true :=
  ⟨(moving_block_reentry_before_pass cfg_block_wall block_rest_moving).1 (by decide),
   (moving_block_reentry_before_pass cfg_block_wall block_rest_moving).2.1
    (by decide) (by decide)⟩

/-- Counterexample to claim C5 as stated: on the tick the fatal hit registers
the lives counter is already decremented while the death countdown has just
been set to `DEATH_TIME` — lives are NOT decremented when the countdown
reaches zero. -/
theorem lives_decrement_at_initiation_counterexample :
    game_active.player.lives = 2 ∧
    (game_tick cfg_enemy_overlap ⟨640, 320⟩ none game_active).player.lives = 1 ∧
    (game_tick cfg_enemy_overlap ⟨640, 320⟩ none game_active).player.death_timer =
      some DEATH_TIME ∧
    DEATH_TIME ≠ 0 := by
  decide

/-- Claim C5, amended: a fatal collision while Active freezes input, starts
the fixed `DEATH_TIME` countdown and decrements lives immediately at
initiation; lives never change again while the countdown runs; when the
countdown reaches zero, if no lives remain the game reports game over with no
reset, otherwise the level is reset and the player returns to Active at the
level-start anchor.  (In particular, a player with 1 life before the hit ends
with 0 lives and game over after the countdown.) -/
theorem player_death_sequence (cfg : UpdateConfig) (startPos : Vec)
    (input : Option Vec) (g : GameState) :
    (g.player.death_timer = none →
      (player_kinematics cfg input g.player).killed = true →
      (Player.update cfg input g.player).lives = g.player.lives - 1 ∧
      (Player.update cfg input g.player).frozen = true ∧
      (Player.update cfg input g.player).death_timer = some DEATH_TIME) ∧
    (∀ t, g.player.death_timer = some t →
      (Player.update cfg input g.player).death_timer = some (t - 1) ∧
      (Player.update cfg input g.player).lives = g.player.lives) ∧
    ((Player.update cfg input g.player).death_timer = some 0 →
      ((Player.update cfg input g.player).lives = 0 →
        (game_tick cfg startPos input g).gameOver = true ∧
        (game_tick cfg startPos input g).levelReset = false) ∧
      ((Player.update cfg input g.player).lives ≠ 0 →
        (game_tick cfg startPos input g).gameOver = false ∧
        (game_tick cfg startPos input g).levelReset = true ∧
        (game_tick cfg startPos input g).player.death_timer = none ∧
        (game_tick cfg startPos input g).player.frozen = false ∧
        (game_tick cfg startPos input g).player.actor.pos = startPos)) := by
  refine ⟨?_, ?_, ?_⟩
  · intro ht hk
    unfold Player.update
    rw [ht]
    simp [hk]
  · intro t ht
    unfold Player.update
    rw [ht]
    simp
  · intro h0
    constructor
    · intro hl
      unfold game_tick
      simp [h0, hl]
    · intro hl
      unfold game_tick
      simp [h0, hl, reset_player]

/-- Witness for the amended C5: the initiation tick on a 2-life player, a
countdown tick, and both expiry outcomes (0 lives left: game over and no
reset; 1 life left: reset to Active at the anchor). -/
theorem player_death_sequence_witness :
    ((Player.update cfg_enemy_overlap none game_active.player).lives = 1 ∧
      (Player.update cfg_enemy_overlap none game_active.player).frozen = true ∧
      (Player.update cfg_enemy_overlap none game_active.player).death_timer =
        some DEATH_TIME) ∧
    ((game_tick cfg_enemy_overlap ⟨640, 320⟩ none game_expiring).gameOver = true ∧
      (game_tick cfg_enemy_overlap ⟨640, 320⟩ none game_expiring).levelReset =
        false) ∧
    ((game_tick cfg_enemy_overlap ⟨640, 320⟩ none game_expiring_lives).gameOver =
        false ∧
      (game_tick cfg_enemy_overlap ⟨640, 320⟩ none game_expiring_lives).levelReset =
        true ∧
      (game_tick cfg_enemy_overlap ⟨640, 320⟩ none
          game_expiring_lives).player.death_timer = none ∧
      (game_tick cfg_enemy_overlap ⟨640, 320⟩ none
          game_expiring_lives).player.frozen = false ∧
      (game_tick cfg_enemy_overlap ⟨640, 320⟩ none
          game_expiring_lives).player.actor.pos = ⟨640, 320⟩) := by
  refine ⟨?_, ?_, ?_⟩
  · have h :=
      (player_death_sequence cfg_enemy_overlap ⟨640, 320⟩ none game_active).1
        (by decide) (by decide)
    exact ⟨h.1.trans (by decide), h.2.1, h.2.2⟩
  · have h :=
      ((player_death_sequence cfg_enemy_overlap ⟨640, 320⟩ none game_expiring).2.2
        (by decide)).1 (by decide)
    exact h
  · have h :=
      ((player_death_sequence cfg_enemy_overlap ⟨640, 320⟩ none
        game_expiring_lives).2.2 (by decide)).2 (by decide)
    exact ⟨h.1, h.2.1, h.2.2.1, h.2.2.2.1, h.2.2.2.2⟩

/-- The player-ward direction is always one of the four axis directions. -/
theorem chase_direction_cases (pos playerPos : Vec) :
    chase_direction pos playerPos = ⟨0, 1⟩ ∨ chase_direction pos playerPos = ⟨0, -1⟩ ∨
    chase_direction pos playerPos = ⟨1, 0⟩ ∨ chase_direction pos playerPos = ⟨-1, 0⟩ := by
  simp only [chase_direction]
  split_ifs <;> simp

/-- For an axis-aligned facing, no entry of `turn_options` equals the facing
itself (index 0 is its reverse, indices 1-2 its perpendiculars). -/
theorem turn_option_ne_facing (facing : Vec) (idx : Fin 3)
    (hfour : facing = ⟨0, 1⟩ ∨ facing = ⟨0, -1⟩ ∨ facing = ⟨1, 0⟩ ∨
      facing = ⟨-1, 0⟩) : turn_option facing idx ≠ facing := by
  rcases hfour with h | h | h | h <;> subst h <;> fin_cases idx <;> decide

/-- Every entry of `turn_options` is the reverse of the facing or one of its
two perpendiculars. -/
theorem turn_option_mem (facing : Vec) (idx : Fin 3) :
    turn_option facing idx ∈
      [Vec.neg facing, (if facing.x = 0 then (⟨1, 0⟩ : Vec) else ⟨0, 1⟩),
       (if facing.x = 0 then (⟨-1, 0⟩ : Vec) else ⟨0, -1⟩)] := by
  fin_cases idx <;> simp [turn_option]

/-- Claim C6: the chosen direction is always among {reverse of the
pre-collision facing, its two perpendiculars, the player-ward direction} and
never equals the pre-collision facing; when the player-ward direction equals
the pre-collision facing the random candidate is returned; otherwise the
player-ward direction is returned exactly when the IQ draw succeeds or `hunt`
is set, and the random candidate otherwise. -/
theorem enemy_direction_choice (facing init_facing pos playerPos : Vec)
    (hunt : Bool) (idx : Fin 3) (rb : Bool)
    (hfour : facing = ⟨0, 1⟩ ∨ facing = ⟨0, -1⟩ ∨ facing = ⟨1, 0⟩ ∨
      facing = ⟨-1, 0⟩)
    (hinit : init_facing = facing) :
    choose_new_direction facing init_facing pos playerPos hunt idx rb ∈
      [Vec.neg facing, (if facing.x = 0 then (⟨1, 0⟩ : Vec) else ⟨0, 1⟩),
       (if facing.x = 0 then (⟨-1, 0⟩ : Vec) else ⟨0, -1⟩),
       chase_direction pos playerPos] ∧
    choose_new_direction facing init_facing pos playerPos hunt idx rb ≠ facing ∧
    (chase_direction pos playerPos = facing →
      choose_new_direction facing init_facing pos playerPos hunt idx rb =
        turn_option facing idx) ∧
    (chase_direction pos playerPos ≠ facing →
      ((rb || hunt) = true →
        choose_new_direction facing init_facing pos playerPos hunt idx rb =
          chase_direction pos playerPos) ∧
      ((rb || hunt) = false →
        choose_new_direction facing init_facing pos playerPos hunt idx rb =
          turn_option facing idx)) := by
  rw [hinit]
  have hturn_ne := turn_option_ne_facing facing idx hfour
  have hturn_mem := turn_option_mem facing idx
  by_cases hc : chase_direction pos playerPos = facing
  · have hres : choose_new_direction facing facing pos playerPos hunt idx rb =
        turn_option facing idx := by
      unfold choose_new_direction
      simp [hc]
    rw [hres]
    refine ⟨?_, hturn_ne, fun _ => rfl, fun hne => absurd hc hne⟩
    simp only [List.mem_cons] at hturn_mem ⊢
    tauto
  · by_cases hr : (rb || hunt) = true
    · have hres : choose_new_direction facing facing pos playerPos hunt idx rb =
          chase_direction pos playerPos := by
        unfold choose_new_direction
        simp [hc, hr]
      rw [hres]
      exact ⟨by simp, hc, fun hceq => absurd hceq hc,
        fun _ => ⟨fun _ => rfl, fun hf => by rw [hr] at hf; cases hf⟩⟩
    · have hres : choose_new_direction facing facing pos playerPos hunt idx rb =
          turn_option facing idx := by
        unfold choose_new_direction
        simp [hc, hr]
      rw [hres]
      refine ⟨?_, hturn_ne, fun hceq => absurd hceq hc,
        fun _ => ⟨fun ht => absurd ht hr, fun _ => rfl⟩⟩
      simp only [List.mem_cons] at hturn_mem ⊢
      tauto

/-- Witness for C6: an enemy below the player facing down; the player-ward
direction is up, differs from the facing, and is chosen on a successful IQ
draw; the choice never repeats the pre-collision facing. -/
theorem enemy_direction_choice_witness :
    choose_new_direction ⟨0, 1⟩ ⟨0, 1⟩ ⟨640, 960⟩ ⟨640, 320⟩ false 0 true ≠
      ⟨0, 1⟩ ∧
    choose_new_direction ⟨0, 1⟩ ⟨0, 1⟩ ⟨640, 960⟩ ⟨640, 320⟩ false 0 true =
      chase_direction ⟨640, 960⟩ ⟨640, 320⟩ :=
  ⟨(enemy_direction_choice ⟨0, 1⟩ ⟨0, 1⟩ ⟨640, 960⟩ ⟨640, 320⟩ false 0 true
      (Or.inl rfl) rfl).2.1,
   ((enemy_direction_choice ⟨0, 1⟩ ⟨0, 1⟩ ⟨640, 960⟩ ⟨640, 320⟩ false 0 true
      (Or.inl rfl) rfl).2.2.2 (by decide)).1 (by decide)⟩

/-- Counterexample to claim C7 as stated.  First: even with two adjacent
diamonds that ARE all mutually overlapping, the check stage of
`Diamond.update` awards nothing and stuns nobody — it raises
`AttributeError` at the `if self.stopped:` gate, because `stopped` is never
assigned anywhere under `src/`.  Second: the condition of the guarded body
is any-based, not all-pairs — three diamonds in a row are not all mutually
overlapping, yet the body's condition holds and the body would add the bonus
and stun every enemy. -/
theorem diamond_check_unreachable_counterexample :
    (all_mutually_overlap diamonds_pair = true ∧
      Diamond.update_check_stage stopped_attr_in_src 500 100 diamonds_pair =
        DiamondUpdateResult.attributeError) ∧
    (all_mutually_overlap diamonds_row3 = false ∧
      diamond_lineup_condition diamonds_row3 = true ∧
      diamond_lineup_check 500 100 diamonds_row3 = ⟨600, true, true⟩) := by
  decide

/-- Claim C7, amended: as `src/` stands the alignment check never awards and
never stuns — `Diamond.update` gates it behind `if self.stopped:` and the
`stopped` attribute is never assigned, so every invocation of the check
stage raises `AttributeError` regardless of the diamonds' overlap.  The
guarded body, were the gate reached with a true value, would award the bonus
and stun every active enemy exactly when SOME diamond's ratio-1.2 hit list
covers every diamond (an any-based condition: all-mutual overlap is
sufficient on a nonempty set but not necessary), and would leave the score
unchanged and stun nobody when no diamond covers all of them. -/
theorem diamond_lineup_check_staged (bonus score : ℤ) (diamonds : List Rect) :
    Diamond.update_check_stage stopped_attr_in_src bonus score diamonds =
      DiamondUpdateResult.attributeError ∧
    (all_mutually_overlap diamonds = true → diamonds ≠ [] →
      diamond_lineup_condition diamonds = true) ∧
    (diamond_lineup_condition diamonds = true →
      Diamond.update_check_stage (some true) bonus score diamonds =
        DiamondUpdateResult.checked ⟨score + bonus, true, true⟩) ∧
    (diamond_lineup_condition diamonds = false →
      Diamond.update_check_stage (some true) bonus score diamonds =
        DiamondUpdateResult.checked ⟨score, false, false⟩) := by
  refine ⟨rfl, ?_, ?_, ?_⟩
  · intro hall hne
    rcases List.exists_mem_of_ne_nil diamonds hne with ⟨s, hs⟩
    unfold diamond_lineup_condition
    rw [List.any_eq_true]
    refine ⟨s, hs, ?_⟩
    rw [decide_eq_true_iff]
    have hfull : diamonds.filter (fun d => collide_rect_scaled 6 5 s d) = diamonds := by
      rw [List.filter_eq_self]
      intro b hb
      have h1 := List.all_eq_true.mp hall s hs
      exact List.all_eq_true.mp h1 b hb
    rw [hfull]
  · intro hcond
    unfold Diamond.update_check_stage diamond_lineup_check
    rw [hcond]
    rfl
  · intro hcond
    unfold Diamond.update_check_stage diamond_lineup_check
    rw [hcond]
    rfl

/-- Witness for the amended C7: with the missing attribute the stage errors
on two adjacent diamonds; those diamonds are all mutually overlapping, so
the guarded body's condition holds and (under a passable gate) it would
award and stun; on the empty set it would do nothing. -/
theorem diamond_lineup_check_staged_witness :
    Diamond.update_check_stage stopped_attr_in_src 500 100 diamonds_pair =
      DiamondUpdateResult.attributeError ∧
    diamond_lineup_condition diamonds_pair = true ∧
    Diamond.update_check_stage (some true) 500 100 diamonds_pair =
      DiamondUpdateResult.checked ⟨600, true, true⟩ ∧
    Diamond.update_check_stage (some true) 500 100 [] =
      DiamondUpdateResult.checked ⟨100, false, false⟩ := by
  have h1 :=
    (diamond_lineup_check_staged 500 100 diamonds_pair).2.1 (by decide) (by decide)
  refine ⟨(diamond_lineup_check_staged 500 100 diamonds_pair).1, h1, ?_, ?_⟩
  · have h2 := (diamond_lineup_check_staged 500 100 diamonds_pair).2.2.1 h1
    rw [h2]
    decide
  · exact (diamond_lineup_check_staged 500 100 []).2.2.2 (by decide)

/-- Counterexample to claim C8 as stated: one non-killed tick after the
respawn, while the immunity countdown is still running (2 -> 1, not yet
zero), the enemy's `stopped_by` is already back to the full
walls-and-blocks list — the walls-only set does NOT persist for the whole
immunity period. -/
theorem respawn_immunity_reverts_early_counterexample :
    enemy_respawned.respawn_timer = some 2 ∧
    enemy_respawned.stopped_by = initial_stopped_by ∧
    (Enemy.update env_empty 16 ⟨640, 320⟩ 0 false 2 enemy_respawned).respawn_timer =
      some 1 ∧
    (Enemy.update env_empty 16 ⟨640, 320⟩ 0 false 2 enemy_respawned).stopped_by =
      reset_stopped_by := by
  decide

/-- Claim C8, amended: `die_and_respawn` starts the immunity countdown with
the walls-only `stopped_by`, so the FIRST collision pass after the respawn
cannot be stopped by blocks; but already on the first non-killed update
during immunity the enemy's `stopped_by` reverts to the full
walls-and-blocks list while the countdown merely decrements, and the
countdown itself is cleared on the update that reads it at zero. -/
theorem respawn_immunity_membership (env : GroupId → List Rect) (dt : ℤ)
    (playerPos : Vec) (idx : Fin 3) (rb : Bool) (imm mult : ℤ)
    (e : EnemyState) (t : ℤ) :
    ((die_and_respawn mult imm e).stopped_by = initial_stopped_by ∧
      (die_and_respawn mult imm e).respawn_timer = some imm ∧
      (die_and_respawn mult imm e).killed_by = initial_killed_by) ∧
    (e.stunned_timer = none → e.respawn_timer = some t → t ≠ 0 →
      (Actor.update ⟨dt, true, e.stopped_by.map env, e.killed_by.map env⟩
        e.actor).killed = false →
      (Enemy.update env dt playerPos idx rb imm e).respawn_timer =
        some (t - 1) ∧
      (Enemy.update env dt playerPos idx rb imm e).stopped_by =
        reset_stopped_by) ∧
    (e.stunned_timer = none → e.respawn_timer = some 0 →
      (Enemy.update env dt playerPos idx rb imm e).respawn_timer = none) := by
  refine ⟨⟨rfl, rfl, rfl⟩, ?_, ?_⟩
  · intro hst hrt ht hk
    unfold Enemy.update
    by_cases hv :
        (Actor.update ⟨dt, true, e.stopped_by.map env, e.killed_by.map env⟩
          e.actor).vel = Vec.zero
    · simp [hst, hrt, ht, hk, hv]
    · simp [hst, hrt, ht, hk, hv]
  · intro hst hrt
    unfold Enemy.update
    by_cases hv :
        (Actor.update ⟨dt, true, e.stopped_by.map env, e.killed_by.map env⟩
          e.actor).vel = Vec.zero
    · simp [hst, hrt, hv]
    · simp [hst, hrt, hv]

/-- Witness for the amended C8: the respawn of a concrete enemy yields the
walls-only list with the countdown set; its next free tick decrements the
countdown to 1 and restores the full list; an update reading the countdown
at zero clears it. -/
theorem respawn_immunity_membership_witness :
    ((die_and_respawn 1 2 enemy_imm_end).stopped_by = initial_stopped_by ∧
      (die_and_respawn 1 2 enemy_imm_end).respawn_timer = some 2 ∧
      (die_and_respawn 1 2 enemy_imm_end).killed_by = initial_killed_by) ∧
    ((Enemy.update env_empty 16 ⟨640, 320⟩ 0 false 2
        enemy_respawned).respawn_timer = some 1 ∧
      (Enemy.update env_empty 16 ⟨640, 320⟩ 0 false 2
        enemy_respawned).stopped_by = reset_stopped_by) ∧
    (Enemy.update env_empty 16 ⟨640, 320⟩ 0 false 2
        enemy_imm_end).respawn_timer = none := by
  refine ⟨?_, ?_, ?_⟩
  · exact (respawn_immunity_membership env_empty 16 ⟨640, 320⟩ 0 false 2 1
      enemy_imm_end 2).1
  · have h := (respawn_immunity_membership env_empty 16 ⟨640, 320⟩ 0 false 2 1
      enemy_respawned 2).2.1 (by decide) (by decide) (by decide) (by decide)
    exact ⟨h.1, h.2⟩
  · exact (respawn_immunity_membership env_empty 16 ⟨640, 320⟩ 0 false 2 1
      enemy_imm_end 2).2.2 (by decide) (by decide)

/-- Invariant of the parse loop on success: every line (stripped) has the
recorded width and only recognized tokens; the recorded height counts all
lines; both final bounds hold; and a width bound fixed before the loop is the
recorded width. -/
theorem parse_lines_ok_inv (lines : List (List Char)) :
    ∀ (n : Nat) (nc : Option Nat) (acc : List (List Char)) (res : ParsedLevel),
    parse_lines lines n nc acc = Except.ok res →
    (∀ l ∈ lines, (strip l).length = res.element_width ∧
      bad_tokens (strip l) = []) ∧
    res.element_height = n + lines.length ∧
    res.element_height ≤ MAX_GRID_HEIGHT - 2 ∧
    res.element_width ≤ MAX_GRID_WIDTH - 2 ∧
    (∀ c, nc = some c → res.element_width = c) := by
  induction lines with
  | nil =>
    intro n nc acc res h
    unfold parse_lines at h
    by_cases hn : n > MAX_GRID_HEIGHT - 2
    · simp [hn] at h
    · rw [if_neg hn] at h
      cases nc with
      | none => simp at h
      | some c =>
        dsimp only at h
        by_cases hc : c > MAX_GRID_WIDTH - 2
        · simp [hc] at h
        · rw [if_neg hc] at h
          simp only [Except.ok.injEq] at h
          subst h
          refine ⟨by simp, by simp, ?_, ?_, ?_⟩
          · show n ≤ MAX_GRID_HEIGHT - 2
            omega
          · show c ≤ MAX_GRID_WIDTH - 2
            omega
          · intro c0 hc0
            simp only [Option.some.injEq] at hc0
            subst hc0
            rfl
  | cons l rest ih =>
    intro n nc acc res h
    unfold parse_lines at h
    cases nc with
    | none =>
      dsimp only at h
      by_cases hbad : bad_tokens (strip l) ≠ []
      · simp [hbad] at h
      · have hbad2 : bad_tokens (strip l) = [] := not_ne_iff.mp hbad
        rw [if_neg hbad] at h
        have IH := ih (n + 1) (some (strip l).length) (strip l :: acc) res h
        refine ⟨?_, ?_, IH.2.2.1, IH.2.2.2.1, ?_⟩
        · intro l2 hl2
          rcases List.mem_cons.mp hl2 with heq | hmem
          · rw [heq]
            exact ⟨(IH.2.2.2.2 (strip l).length rfl).symm, hbad2⟩
          · exact IH.1 l2 hmem
        · rw [IH.2.1]
          simp
          omega
        · intro c0 hc0
          simp at hc0
    | some c =>
      dsimp only at h
      by_cases hw : (strip l).length ≠ c
      · simp [hw] at h
      · have hw2 : (strip l).length = c := not_ne_iff.mp hw
        rw [if_neg hw] at h
        by_cases hbad : bad_tokens (strip l) ≠ []
        · simp [hbad] at h
        · have hbad2 : bad_tokens (strip l) = [] := not_ne_iff.mp hbad
          rw [if_neg hbad] at h
          have IH := ih (n + 1) (some c) (strip l :: acc) res h
          have hwidth : res.element_width = c := IH.2.2.2.2 c rfl
          refine ⟨?_, ?_, IH.2.2.1, IH.2.2.2.1, ?_⟩
          · intro l2 hl2
            rcases List.mem_cons.mp hl2 with heq | hmem
            · rw [heq, hwidth]
              exact ⟨hw2, hbad2⟩
            · exact IH.1 l2 hmem
          · rw [IH.2.1]
            simp
            omega
          · intro c0 hc0
            simp only [Option.some.injEq] at hc0
            subst hc0
            exact hwidth

/-- Invariant of the parse loop on an unrecognised-tokens error: the reported
line number is 1-based past the lines already consumed, in range, and the
reported tokens are exactly the unrecognised characters of that stripped
line (in particular nonempty). -/
theorem parse_lines_unrec_inv (lines : List (List Char)) :
    ∀ (n : Nat) (nc : Option Nat) (acc : List (List Char)) (toks : List Char)
      (ln : Nat),
    parse_lines lines n nc acc =
      Except.error (ParseError.unrecognisedTokens toks ln) →
    n < ln ∧ ln ≤ n + lines.length ∧
    toks = bad_tokens (strip (lines.getD (ln - n - 1) [])) ∧ toks ≠ [] := by
  induction lines with
  | nil =>
    intro n nc acc toks ln h
    unfold parse_lines at h
    by_cases hn : n > MAX_GRID_HEIGHT - 2
    · simp [hn] at h
    · rw [if_neg hn] at h
      cases nc with
      | none => simp at h
      | some c =>
        dsimp only at h
        by_cases hc : c > MAX_GRID_WIDTH - 2
        · simp [hc] at h
        · rw [if_neg hc] at h
          simp at h
  | cons l rest ih =>
    intro n nc acc toks ln h
    unfold parse_lines at h
    cases nc with
    | none =>
      dsimp only at h
      by_cases hbad : bad_tokens (strip l) ≠ []
      · rw [if_pos hbad] at h
        simp only [Except.error.injEq, ParseError.unrecognisedTokens.injEq] at h
        obtain ⟨ht, hl⟩ := h
        subst ht
        subst hl
        refine ⟨by omega, by simp, ?_, hbad⟩
        simp
      · rw [if_neg hbad] at h
        have IH := ih (n + 1) (some (strip l).length) (strip l :: acc) toks ln h
        refine ⟨by omega, ?_, ?_, IH.2.2.2⟩
        · have := IH.2.1
          simp only [List.length_cons]
          omega
        · have hidx : ln - n - 1 = (ln - (n + 1) - 1) + 1 := by omega
          rw [hidx, List.getD_cons_succ]
          exact IH.2.2.1
    | some c =>
      dsimp only at h
      by_cases hw : (strip l).length ≠ c
      · simp [hw] at h
      · rw [if_neg hw] at h
        by_cases hbad : bad_tokens (strip l) ≠ []
        · rw [if_pos hbad] at h
          simp only [Except.error.injEq, ParseError.unrecognisedTokens.injEq] at h
          obtain ⟨ht, hl⟩ := h
          subst ht
          subst hl
          refine ⟨by omega, by simp, ?_, hbad⟩
          simp
        · rw [if_neg hbad] at h
          have IH := ih (n + 1) (some c) (strip l :: acc) toks ln h
          refine ⟨by omega, ?_, ?_, IH.2.2.2⟩
          · have := IH.2.1
            simp only [List.length_cons]
            omega
          · have hidx : ln - n - 1 = (ln - (n + 1) - 1) + 1 := by omega
            rw [hidx, List.getD_cons_succ]
            exact IH.2.2.1

/-- Claim C9: level loading fails fast.  A successful parse certifies that
every (stripped) row has the common recorded width, that every token is
recognized, and that both grid dimensions are within their independent
bounds (`MAX - 2`, leaving room for the one-tile boundary wall) — so
unequal-width rows, unrecognized tokens and oversized grids can only end in
an error surfaced to the caller; and an unrecognised-tokens error names
exactly the offending characters of the offending (1-based) line. -/
theorem level_parse_fail_fast (lines : List (List Char)) :
    (∀ res, parse_input_file lines = Except.ok res →
      (∀ l ∈ lines, (strip l).length = res.element_width ∧
        bad_tokens (strip l) = []) ∧
      res.element_height = lines.length ∧
      res.element_height ≤ MAX_GRID_HEIGHT - 2 ∧
      res.element_width ≤ MAX_GRID_WIDTH - 2) ∧
    (∀ toks ln, parse_input_file lines =
        Except.error (ParseError.unrecognisedTokens toks ln) →
      toks ≠ [] ∧ 1 ≤ ln ∧ ln ≤ lines.length ∧
      toks = bad_tokens (strip (lines.getD (ln - 1) []))) := by
  constructor
  · intro res h
    have H := parse_lines_ok_inv lines 0 none [] res h
    exact ⟨H.1, by simpa using H.2.1, H.2.2.1, H.2.2.2.1⟩
  · intro toks ln h
    have H := parse_lines_unrec_inv lines 0 none [] toks ln h
    have h1 := H.1
    have h2 := H.2.1
    refine ⟨H.2.2.2, by omega, by simpa using h2, ?_⟩
    have h3 := H.2.2.1
    simpa using h3

/-- Witness for C9: a valid 2x2 level parses with the certified shape facts,
and a line holding the unknown token `x` is reported as line 1 with exactly
that character. -/
theorem level_parse_fail_fast_witness :
    ((strip ['1', '.']).length = (2 : Nat) ∧
      bad_tokens (strip ['1', '.']) = []) ∧
    (['x'] ≠ ([] : List Char) ∧ 1 ≤ 1 ∧ 1 ≤ [['x']].length ∧
      ['x'] = bad_tokens (strip ([['x']].getD (1 - 1) []))) :=
  ⟨(level_parse_fail_fast [['1', '.'], ['2', '.']]).1
      ⟨[['1', '.'], ['2', '.']], 2, 2⟩ (by rfl) |>.1 ['1', '.'] (by simp),
   (level_parse_fail_fast [['x']]).2 ['x'] 1 (by rfl)⟩

/-- Any sprite kind the token table can produce is a block, the player, or
an enemy. -/
theorem char_sprite_values (c : Char) (k : SpriteKind)
    (h : char_sprite c = some k) :
    k = SpriteKind.block ∨ k = SpriteKind.player ∨ k = SpriteKind.enemy := by
  unfold char_sprite at h
  cases hf : ELEMENTS.find? (fun e => e.1 == c) with
  | none => rw [hf] at h; simp at h
  | some e =>
    rw [hf] at h
    have hmem := List.mem_of_find?_eq_some hf
    fin_cases hmem <;> simp_all

/-- Every placement a row produces has its kind given by the token table. -/
theorem load_row_kind_mem (rowIdx : Nat) (cols : List Char) :
    ∀ (colIdx : Nat) (p : SpriteKind × Nat × Nat),
    p ∈ load_row rowIdx cols colIdx → ∃ c, char_sprite c = some p.1 := by
  induction cols with
  | nil =>
    intro colIdx p hp
    simp [load_row] at hp
  | cons c rest ih =>
    intro colIdx p hp
    unfold load_row at hp
    cases hcs : char_sprite c with
    | none =>
      rw [hcs] at hp
      exact ih (colIdx + 1) p hp
    | some k =>
      rw [hcs] at hp
      rcases List.mem_cons.mp hp with heq | hmem
      · refine ⟨c, ?_⟩
        rw [heq]
        exact hcs
      · exact ih (colIdx + 1) p hmem

/-- Every placement `_load_sprites` produces has its kind given by the token
table. -/
theorem load_rows_kind_mem (rows : List (List Char)) :
    ∀ (rowIdx : Nat) (p : SpriteKind × Nat × Nat),
    p ∈ load_rows rows rowIdx → ∃ c, char_sprite c = some p.1 := by
  induction rows with
  | nil =>
    intro rowIdx p hp
    simp [load_rows] at hp
  | cons r rest ih =>
    intro rowIdx p hp
    unfold load_rows at hp
    rcases List.mem_append.mp hp with hrow | hrest
    · exact load_row_kind_mem rowIdx r 1 p hrow
    · exact ih (rowIdx + 1) p hrest

/-- Counterexample to claim C10 as stated: a trailing literal space in a
level line is NOT rejected — `line.strip()` silently removes it and the
parse succeeds. -/
theorem space_not_always_rejected_counterexample :
    ' ' ∈ ['1', ' '] ∧
    parse_input_file [['1', ' ']] = Except.ok ⟨[['1']], 1, 1⟩ :=
  ⟨by decide, by rfl⟩

/-- Claim C10, amended: the token table recognizes exactly
`.`, `0`, `1`, `2` and newline; `.` and newline place no entity, `0` maps to
a Block, `1` to the Player (bound as the game's player), `2` to an Enemy; no
placement is ever a Diamond or an EggBlock; a space is not a recognized
token, and a space SURVIVING the per-line strip (i.e. in a row's interior)
makes the parse fail — but leading/trailing spaces are stripped before
validation rather than rejected (see the counterexample). -/
theorem element_table_and_space_handling :
    (∀ c, recognized c = true ↔ c ∈ ['.', '0', '1', '2', '\n']) ∧
    char_sprite '.' = none ∧
    char_sprite '\n' = none ∧
    char_sprite '0' = some SpriteKind.block ∧
    char_sprite '1' = some SpriteKind.player ∧
    char_sprite '2' = some SpriteKind.enemy ∧
    (∀ grid p, p ∈ load_sprites grid →
      p.1 ≠ SpriteKind.diamond ∧ p.1 ≠ SpriteKind.egg) ∧
    recognized ' ' = false ∧
    (∀ lines l res, l ∈ lines → ' ' ∈ strip l →
      parse_input_file lines ≠ Except.ok res) := by
  refine ⟨?_, by rfl, by rfl, by rfl, by rfl, by rfl, ?_, by rfl, ?_⟩
  · intro c
    constructor
    · intro h
      simp only [recognized, ELEMENTS, List.any_cons, List.any_nil,
        Bool.or_eq_true, beq_iff_eq] at h
      rcases h with h | h | h | h | h | h
      case _ => rw [← h]; decide
      case _ => rw [← h]; decide
      case _ => rw [← h]; decide
      case _ => rw [← h]; decide
      case _ => rw [← h]; decide
      case _ => cases h
    · intro h
      fin_cases h <;> rfl
  · intro grid p hp
    obtain ⟨c, hc⟩ := load_rows_kind_mem grid 1 p hp
    rcases char_sprite_values c p.1 hc with h | h | h <;> rw [h] <;> simp
  · intro lines l res hl hsp hok
    have H := parse_lines_ok_inv lines 0 none [] res hok
    have hbad := (H.1 l hl).2
    have hmem : ' ' ∈ bad_tokens (strip l) :=
      List.mem_filter.mpr ⟨hsp, by rfl⟩
    rw [hbad] at hmem
    simp at hmem

/-- Witness for the amended C10: the token `0` is recognized, and a line
with an interior space (which survives stripping) cannot parse
successfully. -/
theorem element_table_and_space_handling_witness :
    recognized '0' = true ∧
    parse_input_file [['1', ' ', '2']] ≠
      Except.ok ⟨[['1', ' ', '2']], 1, 3⟩ :=
  ⟨(element_table_and_space_handling.1 '0').mpr (by decide),
   element_table_and_space_handling.2.2.2.2.2.2.2.2 [['1', ' ', '2']]
     ['1', ' ', '2'] ⟨[['1', ' ', '2']], 1, 3⟩ (by simp) (by decide)⟩

end PenguinGame
